import Mathlib

/-!
Shallow embedding of the authorization / workflow core of
`backend/server.py` (Eternals Studio API): role enum, project and invoice
records, the Mongo-backed collections (modelled as lists with
first-match `find_one` / `update_one` semantics), JWT session tokens,
the authenticator (`register_user`, `login`, `get_current_user`), the
OAuth reconciler (`create_or_update_oauth_user`, `oauth_callback`), the
role-gated endpoints (`create_invoice`, `pay_invoice`,
`update_content_section`, `update_user_role`, `toggle_user_status`) and
the testimonial surface (`create_testimonial`, `get_testimonials`).
-/

namespace EternalsStudio

/-- Python `class UserRole(str, Enum)` in server.py: the four role values. -/
inductive UserRole
  | client
  | client_manager
  | admin
  | super_admin
deriving DecidableEq, Repr

/-- Python `class ProjectStatus(str, Enum)` in server.py (lines 83-91).
Its members are exactly DRAFT, IN_PROGRESS, REVIEW, REVISION, APPROVED,
COMPLETED, ON_HOLD and CANCELLED; there is no LOCKED member. -/
inductive ProjectStatus
  | draft
  | in_progress
  | review
  | revision
  | approved
  | completed
  | on_hold
  | cancelled
deriving DecidableEq, Repr

/-- Attribute lookup on the ProjectStatus enum, as Python performs for an
expression such as `ProjectStatus.DRAFT`. Returns none (modelling the
AttributeError that Python raises) for any name that is not a member of
the enum; in particular `fromMemberName "LOCKED" = none`, which is what
the expression `ProjectStatus.LOCKED` in `create_invoice` hits. -/
def ProjectStatus.fromMemberName : String → Option ProjectStatus
  | "DRAFT" => some .draft
  | "IN_PROGRESS" => some .in_progress
  | "REVIEW" => some .review
  | "REVISION" => some .revision
  | "APPROVED" => some .approved
  | "COMPLETED" => some .completed
  | "ON_HOLD" => some .on_hold
  | "CANCELLED" => some .cancelled
  | _ => none

/-- Python `class InvoiceStatus(str, Enum)` in server.py. -/
inductive InvoiceStatus
  | draft
  | sent
  | paid
  | overdue
  | cancelled
deriving DecidableEq, Repr

/-- One entry of a user document `oauth_providers` mapping:
`{"provider_id": ..., "email": ..., "last_login": ...}`.
Timestamps are modelled as natural numbers (seconds). -/
structure OAuthLink where
  provider_id : String
  email : String
  last_login : Nat
deriving DecidableEq, Repr

/-- A stored user document (the claim-relevant fields of the `User`
pydantic model plus the `password` key that `register_user` adds to the
stored dict; OAuth-only accounts have no password key, hence Option).
The `oauth_providers` dict is modelled as an association list from
provider name to link data. -/
structure User where
  id : String
  email : String
  full_name : String
  role : UserRole
  is_active : Bool
  avatar_url : Option String
  oauth_providers : List (String × OAuthLink)
  last_login : Option Nat
  login_method : Option String
  password : Option String
deriving DecidableEq, Repr

/-- The legacy `Project` pydantic model (claim-relevant fields). -/
structure Project where
  id : String
  title : String
  description : String
  client_id : String
  status : ProjectStatus
  files : List String
  invoice_id : Option String
  is_locked : Bool
deriving DecidableEq, Repr

/-- The legacy `Invoice` pydantic model (claim-relevant fields).
The float `amount` is modelled as a rational number. -/
structure Invoice where
  id : String
  project_id : String
  amount : Rat
  status : InvoiceStatus
  due_date : Option Nat
  description : String
deriving DecidableEq, Repr

/-- The `Testimonial` pydantic model (claim-relevant fields). -/
structure Testimonial where
  id : String
  client_name : String
  client_role : String
  client_avatar : String
  rating : Nat
  title : String
  content : String
  highlights : List String
  is_featured : Bool
  created_at : Nat
  approved : Bool
deriving DecidableEq, Repr

/-- A stored content section document (legacy `ContentSection` model);
the `content` dict is modelled as an association list of string pairs. -/
structure ContentSection where
  id : String
  section_name : String
  content : List (String × String)
  page : String
  updated_at : Nat
  updated_by : String
deriving DecidableEq, Repr

/-- The document store: the Mongo collections the claims touch, each
modelled as a list of documents in insertion order (`insert_one`
appends; `find_one` returns the first match; `update_one` updates the
first match). -/
structure DB where
  users : List User
  projects : List Project
  invoices : List Invoice
  testimonials : List Testimonial
  content : List ContentSection
deriving DecidableEq, Repr

/-- Mongo `update_one`: apply `f` to the first element satisfying `q`,
leave everything else unchanged (no-op when nothing matches). -/
def updateFirst (q : α → Bool) (f : α → α) : List α → List α
  | [] => []
  | x :: xs => if q x then f x :: xs else x :: updateFirst q f xs

/-- HTTP-level failures (`HTTPException(status_code, detail)`) together
with the AttributeError a Python enum raises on a missing member. -/
inductive ApiError
  | http (statusCode : Nat) (detail : String)
  | attributeError (msg : String)
deriving DecidableEq, Repr

/-- The single 401 exception object built at the top of
`get_current_user`; every failure branch of token resolution raises
this same exception. -/
def credentials_exception : ApiError :=
  .http 401 "Could not validate credentials"

/-- True exactly when a result is a 403 HTTPException (Forbidden). -/
def isForbidden : Except ApiError α → Bool
  | .error (.http 403 _) => true
  | _ => false

/-- JWT claims used by the server: the `sub` claim (subject email) and
the `exp` claim (expiry instant, seconds). -/
structure JwtClaims where
  sub : Option String
  exp : Nat
deriving DecidableEq, Repr

/-- Symbolic model of an HS256 JWT: a token is either a well-formed
payload signed under some secret (the signature is modelled by
remembering which secret produced it, so verification succeeds exactly
for the same secret) or a malformed blob. -/
inductive JwtToken
  | signed (claims : JwtClaims) (secret : String)
  | malformed (raw : String)
deriving DecidableEq, Repr

/-- PyJWT `jwt.decode(token, secret, [HS256])` at time `now`: fails
(raises `PyJWTError`, modelled as none) on a malformed token, a
signature mismatch, or an expiry not in the future. -/
def jwtDecode (tok : JwtToken) (secret : String) (now : Nat) : Option JwtClaims :=
  match tok with
  | .malformed _ => none
  | .signed c s =>
    if s = secret then (if now < c.exp then some c else none) else none

/-- `ACCESS_TOKEN_EXPIRE_MINUTES = 30` converted to seconds. -/
def ACCESS_TOKEN_EXPIRE_SECONDS : Nat := 30 * 60

/-- `create_access_token(data, expires_delta)`: payload is the given
`sub` plus `exp = now + expires_delta` (default 15 minutes), signed
with the server secret. -/
def create_access_token (sub : String) (expires_delta : Option Nat)
    (now : Nat) (secret : String) : JwtToken :=
  let expire := now + (match expires_delta with | some d => d | none => 15 * 60)
  .signed { sub := some sub, exp := expire } secret

/-- `get_current_user`: decode the bearer token, take the `sub` email,
look the user up by email; raise the single `credentials_exception` on
any failure (bad or expired token, missing sub, unknown email). -/
def get_current_user (db : DB) (token : JwtToken) (secret : String)
    (now : Nat) : Except ApiError User :=
  match jwtDecode token secret now with
  | none => .error credentials_exception
  | some payload =>
    match payload.sub with
    | none => .error credentials_exception
    | some email =>
      match db.users.find? (fun u => u.email == email) with
      | none => .error credentials_exception
      | some u => .ok u

/-- Abstract model of the bcrypt primitives used by `hash_password` and
`verify_password`; theorems that need the round trip take the standard
bcrypt property `checkpw p (hashpw p) = true` as a hypothesis. -/
structure BcryptModel where
  hashpw : String → String
  checkpw : String → String → Bool

/-- server.py `hash_password`. -/
def hash_password (B : BcryptModel) (password : String) : String :=
  B.hashpw password

/-- server.py `verify_password`. -/
def verify_password (B : BcryptModel) (password hashed : String) : Bool :=
  B.checkpw password hashed

/-- Request body of `POST /auth/register` (`UserCreate`). -/
structure UserCreate where
  email : String
  password : String
  full_name : String
  role : UserRole
  company : Option String
deriving DecidableEq, Repr

/-- The `User(**user_dict)` object a successful registration returns
(no password field in the response model). -/
def registerUserObj (freshId : String) (user_data : UserCreate) : User :=
  { id := freshId, email := user_data.email, full_name := user_data.full_name
    role := user_data.role, is_active := true, avatar_url := none
    oauth_providers := [], last_login := none, login_method := none
    password := none }

/-- The stored dict `{**user_obj.dict(), "password": hashed_password}`. -/
def registerStored (B : BcryptModel) (freshId : String)
    (user_data : UserCreate) : User :=
  { registerUserObj freshId user_data with
    password := some (hash_password B user_data.password) }

/-- `POST /auth/register`: reject a duplicate email with 400, otherwise
store the profile plus the salted password hash (appended to the users
collection) and return the user object (without the hash). `freshId`
stands for the generated uuid. -/
def register_user (B : BcryptModel) (freshId : String)
    (db : DB) (user_data : UserCreate) : Except ApiError User × DB :=
  match db.users.find? (fun u => u.email == user_data.email) with
  | some _ => (.error (.http 400 "Email already registered"), db)
  | none =>
    (.ok (registerUserObj freshId user_data),
     { db with users := db.users ++ [registerStored B freshId user_data] })

/-- `POST /auth/login`: look the user up by email, verify the password
against the stored hash, and mint a 30-minute session token for the
subject email. A missing user or a hash mismatch is a 401. A stored
document without a password key raises a KeyError in the source
(modelled as a generic 500). -/
def login (B : BcryptModel) (db : DB) (username password : String)
    (now : Nat) (secret : String) : Except ApiError (JwtToken × User) :=
  match db.users.find? (fun u => u.email == username) with
  | none => .error (.http 401 "Incorrect email or password")
  | some u =>
    match u.password with
    | none => .error (.http 500 "KeyError: password")
    | some hashed =>
      if verify_password B password hashed then
        .ok (create_access_token u.email (some ACCESS_TOKEN_EXPIRE_SECONDS) now secret, u)
      else
        .error (.http 401 "Incorrect email or password")

/-- Request body of `POST /invoices` (`InvoiceCreate`). -/
structure InvoiceCreate where
  project_id : String
  amount : Rat
  description : String
  due_date : Option Nat
deriving DecidableEq, Repr

/-- `POST /invoices` (`create_invoice`): roles outside ADMIN and
SUPER_ADMIN get a 403 before any collection is touched. Otherwise the
invoice document is inserted, and the handler then builds the update
dict `{"invoice_id": ..., "is_locked": True, "status": ProjectStatus.LOCKED}`
for the project. The attribute lookup `ProjectStatus.LOCKED` is
modelled by `ProjectStatus.fromMemberName "LOCKED"`; when it fails the
AttributeError escapes after the invoice insert but before the project
update, exactly as in the source. -/
def create_invoice (freshId : String) (db : DB)
    (invoice_data : InvoiceCreate) (current_user : User) :
    Except ApiError Invoice × DB :=
  if !(current_user.role == .super_admin || current_user.role == .admin) then
    (.error (.http 403 "Not authorized to create invoices"), db)
  else
    let invoice_obj : Invoice :=
      { id := freshId, project_id := invoice_data.project_id
        amount := invoice_data.amount, status := .draft
        due_date := invoice_data.due_date, description := invoice_data.description }
    let db1 := { db with invoices := db.invoices ++ [invoice_obj] }
    match ProjectStatus.fromMemberName "LOCKED" with
    | none =>
      (.error (.attributeError "type object ProjectStatus has no attribute LOCKED"), db1)
    | some lockedStatus =>
      let projects' := updateFirst (fun p => p.id == invoice_data.project_id)
        (fun p => { p with invoice_id := some invoice_obj.id,
                           is_locked := true, status := lockedStatus })
        db1.projects
      (.ok invoice_obj, { db1 with projects := projects' })

set_option linter.unusedVariables false in
/-- `PUT /invoices/{invoice_id}/pay` (`pay_invoice`): no role check at
all beyond authentication; 404 when the invoice id is unknown;
otherwise set the first matching invoice to PAID and unlock the first
project whose `invoice_id` references it (setting status IN_PROGRESS);
the unused current_user parameter mirrors the authentication-only
dependency of the handler. -/
def pay_invoice (db : DB) (invoice_id : String) (current_user : User) :
    Except ApiError String × DB :=
  match db.invoices.find? (fun i => i.id == invoice_id) with
  | none => (.error (.http 404 "Invoice not found"), db)
  | some _ =>
    let invoices' := updateFirst (fun i => i.id == invoice_id)
      (fun i => { i with status := .paid }) db.invoices
    let projects' := updateFirst (fun p => p.invoice_id == some invoice_id)
      (fun p => { p with is_locked := false, status := .in_progress }) db.projects
    (.ok "Invoice paid successfully", { db with invoices := invoices', projects := projects' })

/-- `PUT /content/{section_name}` (`update_content_section`): allowed
roles are SUPER_ADMIN, ADMIN and CLIENT_MANAGER; the updated section
replaces the first stored section of that name (upsert). -/
def update_content_section (freshId : String) (now : Nat) (db : DB)
    (section_name : String) (content_update : List (String × String))
    (current_user : User) : Except ApiError ContentSection × DB :=
  if !(current_user.role == .super_admin || current_user.role == .admin
        || current_user.role == .client_manager) then
    (.error (.http 403 "Not authorized to update content"), db)
  else
    let updated_content : ContentSection :=
      { id := freshId, section_name := section_name, content := content_update
        page := "home", updated_at := now, updated_by := current_user.id }
    let content' :=
      if db.content.any (fun c => c.section_name == section_name) then
        updateFirst (fun c => c.section_name == section_name)
          (fun _ => updated_content) db.content
      else
        db.content ++ [updated_content]
    (.ok updated_content, { db with content := content' })

/-- `PUT /users/{user_id}/role` (`update_user_role`): SUPER_ADMIN only;
update the first user with the given id, 404 when none matched. -/
def update_user_role (db : DB) (user_id : String) (new_role : UserRole)
    (current_user : User) : Except ApiError String × DB :=
  if !(current_user.role == .super_admin) then
    (.error (.http 403 "Super admin access required"), db)
  else
    let users' := updateFirst (fun u => u.id == user_id)
      (fun u => { u with role := new_role }) db.users
    if db.users.any (fun u => u.id == user_id) then
      (.ok "User role updated", { db with users := users' })
    else
      (.error (.http 404 "User not found"), { db with users := users' })

/-- `PUT /users/{user_id}/status` (`toggle_user_status`): SUPER_ADMIN
only; flip the `is_active` flag of the first user with the given id. -/
def toggle_user_status (db : DB) (user_id : String) (current_user : User) :
    Except ApiError String × DB :=
  if !(current_user.role == .super_admin) then
    (.error (.http 403 "Super admin access required"), db)
  else
    match db.users.find? (fun u => u.id == user_id) with
    | none => (.error (.http 404 "User not found"), db)
    | some u =>
      let new_status := !u.is_active
      let users' := updateFirst (fun v => v.id == user_id)
        (fun v => { v with is_active := new_status }) db.users
      (.ok (if new_status then "User activated successfully" else "User deactivated successfully"),
       { db with users := users' })

/-- The testimonial JSON payload as submitted over HTTP, including a
possible extraneous `approved` field; pydantic parsing into
`TestimonialCreate` (which declares no such field) drops it. -/
structure TestimonialPayload where
  client_name : String
  client_role : String
  client_avatar : String
  rating : Nat
  title : String
  content : String
  highlights : List String
  approved : Option Bool
deriving DecidableEq, Repr

/-- The `TestimonialCreate` pydantic model: exactly the declared fields,
no `approved`. -/
structure TestimonialCreate where
  client_name : String
  client_role : String
  client_avatar : String
  rating : Nat
  title : String
  content : String
  highlights : List String
deriving DecidableEq, Repr

/-- Pydantic validation of the request body against `TestimonialCreate`:
unknown fields (such as `approved`) are silently ignored. -/
def parseTestimonialCreate (p : TestimonialPayload) : TestimonialCreate :=
  { client_name := p.client_name, client_role := p.client_role
    client_avatar := p.client_avatar, rating := p.rating, title := p.title
    content := p.content, highlights := p.highlights }

/-- `POST /testimonials` (`create_testimonial`, public): build the
document from the payload, then overwrite `approved` with False
(requires admin approval) before inserting. -/
def create_testimonial (freshId : String) (now : Nat) (db : DB)
    (testimonial : TestimonialCreate) : Testimonial × DB :=
  let doc : Testimonial :=
    { id := freshId, client_name := testimonial.client_name
      client_role := testimonial.client_role
      client_avatar := testimonial.client_avatar, rating := testimonial.rating
      title := testimonial.title, content := testimonial.content
      highlights := testimonial.highlights, is_featured := false
      created_at := now, approved := false }
  (doc, { db with testimonials := db.testimonials ++ [doc] })

/-- `GET /testimonials` (public): only documents with `approved = True`. -/
def get_testimonials (db : DB) : List Testimonial :=
  db.testimonials.filter (fun t => t.approved)

/-- Python truthiness of an optional string query parameter or dict
entry: absent and empty strings are falsy. -/
def truthyStr : Option String → Bool
  | none => false
  | some s => !(s == "")

/-- Normalized provider user-info as produced by `get_user_info` and
consumed by `create_or_update_oauth_user`. -/
structure OAuthUserData where
  provider : String
  provider_id : String
  email : String
  display_name : Option String
  name : Option String
  avatar : Option String
deriving DecidableEq, Repr

/-- Lookup of `oauth_providers[provider]` in a user document. -/
def getLink (links : List (String × OAuthLink)) (provider : String) :
    Option OAuthLink :=
  (links.find? (fun kv => kv.1 == provider)).map (fun kv => kv.2)

/-- Dict assignment `oauth_providers[provider] = link`: replace the
entry for the provider, or add one when absent. -/
def setLink : List (String × OAuthLink) → String → OAuthLink →
    List (String × OAuthLink)
  | [], provider, link => [(provider, link)]
  | kv :: rest, provider, link =>
    if kv.1 == provider then (provider, link) :: rest
    else kv :: setLink rest provider link

/-- The Mongo filter `{f"oauth_providers.{provider}.provider_id": pid}`. -/
def hasProviderLink (u : User) (provider pid : String) : Bool :=
  match getLink u.oauth_providers provider with
  | some l => l.provider_id == pid
  | none => false

/-- Python exceptions that reach the `except Exception` handler of the
OAuth callback: an `HTTPException` raised in the body, or any other
exception (provider errors, pydantic validation, ...). -/
inductive PyExc
  | httpException (statusCode : Nat) (detail : String)
  | generic (msg : String)
deriving DecidableEq, Repr

/-- The message `str(e)` interpolated into the error redirect URL. -/
def PyExc.msg : PyExc → String
  | .httpException c d => toString c ++ ": " ++ d
  | .generic m => m

/-- The `$set` document both update branches of
`create_or_update_oauth_user` apply to the matched user. -/
def applyOAuthSet (d : OAuthUserData) (now : Nat) (u : User) : User :=
  { u with
    oauth_providers := setLink u.oauth_providers d.provider
      { provider_id := d.provider_id, email := d.email, last_login := now },
    last_login := some now,
    login_method := some d.provider,
    avatar_url := if truthyStr d.avatar then d.avatar else u.avatar_url }

/-- The brand-new User document the else-branch of
`create_or_update_oauth_user` inserts: default CLIENT role and exactly
one provider link. -/
def oauthNewUser (freshId : String) (now : Nat) (d : OAuthUserData)
    (fn : String) : User :=
  { id := freshId, email := d.email, full_name := fn
    role := .client, is_active := true, avatar_url := d.avatar
    oauth_providers :=
      [(d.provider, { provider_id := d.provider_id, email := d.email, last_login := now })]
    last_login := some now, login_method := some d.provider
    password := none }

/-- `create_or_update_oauth_user`: reconciliation precedence.
First look for a user already linking (provider, provider_id); update
that link in place and return the re-fetched user. Else look for a user
with the same email; attach the link to it. Else insert a brand-new
CLIENT user carrying exactly this one link. The pydantic construction
of a new user fails when both display_name and name are falsy
(full_name would be None), and the re-fetch after an update fails only
on an id that vanished; both surface as generic exceptions. -/
def create_or_update_oauth_user (freshId : String) (now : Nat) (db : DB)
    (d : OAuthUserData) : Except PyExc User × DB :=
  match db.users.find? (fun u => hasProviderLink u d.provider d.provider_id) with
  | some existing_user =>
    let users' := updateFirst (fun u => u.id == existing_user.id)
      (applyOAuthSet d now) db.users
    let db' := { db with users := users' }
    match users'.find? (fun u => u.id == existing_user.id) with
    | some updated_user => (.ok updated_user, db')
    | none => (.error (.generic "user vanished after update"), db')
  | none =>
    match db.users.find? (fun u => u.email == d.email) with
    | some existing_by_email =>
      let users' := updateFirst (fun u => u.id == existing_by_email.id)
        (applyOAuthSet d now) db.users
      let db' := { db with users := users' }
      match users'.find? (fun u => u.id == existing_by_email.id) with
      | some updated_user => (.ok updated_user, db')
      | none => (.error (.generic "user vanished after update"), db')
    | none =>
      match (if truthyStr d.display_name then d.display_name else d.name) with
      | none => (.error (.generic "validation error: full_name none"), db)
      | some fn =>
        (.ok (oauthNewUser freshId now d fn),
         { db with users := db.users ++ [oauthNewUser freshId now d fn] })

/-- `determine_redirect_url`: staff roles land on the dashboard, CLIENT
on the client portal. -/
def determine_redirect_url (user : User) : String :=
  if user.role == .super_admin || user.role == .admin
      || user.role == .client_manager then
    "https://graphix-hub-4.preview.emergentagent.com/dashboard"
  else
    "https://graphix-hub-4.preview.emergentagent.com/client-portal"

/-- The frontend auth surface every callback error redirects to. -/
def FRONTEND_AUTH : String :=
  "https://graphix-hub-4.preview.emergentagent.com/auth"

/-- An HTTP response of the callback endpoint: a 302 redirect or a
structured JSON error response. -/
inductive Response
  | redirect (url : String)
  | jsonError (statusCode : Nat) (detail : String)
deriving DecidableEq, Repr

/-- A printable stand-in for the serialized JWT placed in the redirect
URL query string. -/
def JwtToken.serialize : JwtToken → String
  | .malformed raw => raw
  | .signed c s =>
    "jwt." ++ (match c.sub with | some e => e | none => "") ++ "."
      ++ toString c.exp ++ "." ++ s

/-- Outcome of the two outbound provider calls made inside the callback
(token exchange and user-info fetch): either call may raise, and the
token response may lack an access_token. -/
structure ProviderBehavior where
  token_exchange : Except String (Option String)
  user_info : Except String OAuthUserData
deriving Repr

/-- The body of the `try` block of `oauth_callback`, lines 629-685 of
server.py: provider-error branch first (truthiness of `error`), then
the missing-parameters branch (truthiness of `code` and `state`), then
provider lookup, token exchange, user-info fetch, reconciliation, token
mint and the success redirect. Raised exceptions are returned as
`.error` together with the store state at the time of the raise. -/
def oauth_callback_body (provider : String)
    (code state error error_description : Option String)
    (getProvider : Option ProviderBehavior) (freshId : String) (now : Nat)
    (secret : String) (db : DB) : Except PyExc Response × DB :=
  if truthyStr error then
    let err := error.getD ""
    let error_message := if truthyStr error_description then error_description.getD "" else err
    (.ok (.redirect (FRONTEND_AUTH ++ "?error=" ++ err ++ "&provider=" ++ provider
        ++ "&message=" ++ error_message)), db)
  else if !(truthyStr code && truthyStr state) then
    (.ok (.redirect (FRONTEND_AUTH ++ "?error=missing_parameters&provider=" ++ provider
        ++ "&message=Missing required OAuth parameters")), db)
  else
    match getProvider with
    | none =>
      (.error (.httpException 400 ("OAuth provider " ++ provider ++ " not available")), db)
    | some pb =>
      match pb.token_exchange with
      | .error e => (.error (.generic e), db)
      | .ok tokenOpt =>
        if !(truthyStr tokenOpt) then
          (.error (.httpException 400 "Failed to get access token"), db)
        else
          match pb.user_info with
          | .error e => (.error (.generic e), db)
          | .ok user_info =>
            match create_or_update_oauth_user freshId now db user_info with
            | (.error e, db') => (.error e, db')
            | (.ok user, db') =>
              let jwt_token := create_access_token user.email
                (some ACCESS_TOKEN_EXPIRE_SECONDS) now secret
              let redirect_url := determine_redirect_url user
              (.ok (.redirect (redirect_url ++ "?token=" ++ jwt_token.serialize
                  ++ "&user_id=" ++ user.id ++ "&provider=" ++ provider)), db')

/-- `GET /auth/{provider}/callback`: the whole body runs inside
`try ... except Exception`, so every exception (including the
HTTPExceptions raised in the body) is converted into a redirect to the
frontend auth surface carrying `error=oauth_failed`. -/
def oauth_callback (provider : String)
    (code state error error_description : Option String)
    (getProvider : Option ProviderBehavior) (freshId : String) (now : Nat)
    (secret : String) (db : DB) : Response × DB :=
  match oauth_callback_body provider code state error error_description
      getProvider freshId now secret db with
  | (.ok r, db') => (r, db')
  | (.error e, db') =>
    (.redirect (FRONTEND_AUTH ++ "?error=oauth_failed&provider=" ++ provider
        ++ "&message=" ++ e.msg), db')

/-! Helper lemmas about the store primitives. -/

theorem length_updateFirst (q : α → Bool) (f : α → α) :
    ∀ l : List α, (updateFirst q f l).length = l.length
  | [] => rfl
  | x :: xs => by
    simp only [updateFirst]
    split <;> simp [length_updateFirst q f xs]

theorem updateFirst_of_none (q : α → Bool) (f : α → α) :
    ∀ l : List α, l.find? q = none → updateFirst q f l = l
  | [], _ => rfl
  | x :: xs, h => by
    rw [List.find?_cons] at h
    cases hx : q x with
    | true => simp [hx] at h
    | false =>
      simp only [hx] at h
      simp [updateFirst, hx, updateFirst_of_none q f xs h]

theorem find?_updateFirst_self (q : α → Bool) (f : α → α)
    (hqf : ∀ x, q x = true → q (f x) = true) :
    ∀ (l : List α) (a : α), l.find? q = some a →
      (updateFirst q f l).find? q = some (f a)
  | [], a, h => by simp [List.find?] at h
  | x :: xs, a, h => by
    rw [List.find?_cons] at h
    cases hx : q x with
    | true =>
      simp only [hx] at h
      cases h
      simp [updateFirst, hx, List.find?_cons, hqf x hx]
    | false =>
      simp only [hx] at h
      simp [updateFirst, hx, List.find?_cons,
        find?_updateFirst_self q f hqf xs a h]

theorem mem_updateFirst_unique (q : α → Bool) (f : α → α)
    (hqf : ∀ x, q (f x) = q x) :
    ∀ (l : List α), (l.filter q).length ≤ 1 →
      ∀ x ∈ updateFirst q f l, q x = true → ∃ y ∈ l, q y = true ∧ x = f y
  | [], _, x, hx, _ => by simp [updateFirst] at hx
  | z :: zs, hlen, x, hx, hqx => by
    cases hz : q z with
    | true =>
      have hfilter : zs.filter q = [] := by
        rw [List.filter_cons_of_pos hz] at hlen
        simp only [List.length_cons] at hlen
        exact List.length_eq_zero.mp (by omega)
      simp only [updateFirst, hz, if_pos] at hx
      rcases List.mem_cons.mp hx with h | h
      · exact ⟨z, List.mem_cons_self z zs, hz, h⟩
      · exact absurd (List.mem_filter.mpr ⟨h, hqx⟩) (by simp [hfilter])
    | false =>
      have hlen' : (zs.filter q).length ≤ 1 := by
        rwa [List.filter_cons_of_neg (by simp [hz])] at hlen
      simp only [updateFirst, hz, if_neg, Bool.false_eq_true, not_false_iff] at hx
      rcases List.mem_cons.mp hx with h | h
      · subst h; rw [hz] at hqx; exact absurd hqx (by simp)
      · obtain ⟨y, hy, hqy, hxy⟩ := mem_updateFirst_unique q f hqf zs hlen' x h hqx
        exact ⟨y, List.mem_cons_of_mem z hy, hqy, hxy⟩

theorem getLink_setLink (provider : String) (link : OAuthLink) :
    ∀ links, getLink (setLink links provider link) provider = some link
  | [] => by simp [getLink, setLink, List.find?]
  | kv :: rest => by
    cases hkv : kv.1 == provider with
    | true =>
      simp [getLink, setLink, hkv, List.find?_cons]
    | false =>
      have ih := getLink_setLink provider link rest
      simp only [getLink, setLink, hkv, Bool.false_eq_true, if_neg, not_false_iff] at ih ⊢
      rw [List.find?_cons, hkv]
      exact ih

theorem find?_email_updateFirst (uid e : String) (g : User → User)
    (hg : ∀ u, (g u).email = u.email) :
    ∀ (l : List User) (u : User),
      l.find? (fun v => v.id == uid) = some u →
      l.find? (fun v => v.email == e) = some u →
      (updateFirst (fun v => v.id == uid) g l).find? (fun v => v.email == e)
        = some (g u)
  | [], u, h1, _ => by simp [List.find?] at h1
  | x :: xs, u, h1, h2 => by
    cases hx : x.id == uid with
    | true =>
      rw [List.find?_cons] at h1
      simp only [hx] at h1
      injection h1 with h1
      subst h1
      have hue : (x.email == e) = true := by simpa using List.find?_some h2
      have hge : ((g x).email == e) = true := by rw [hg x]; exact hue
      simp [updateFirst, hx, List.find?_cons, hge]
    | false =>
      have hu_id : u.id == uid := by
        rw [List.find?_cons] at h1
        simp only [hx] at h1
        simpa using List.find?_some h1
      cases hex : x.email == e with
      | true =>
        rw [List.find?_cons] at h2
        simp only [hex] at h2
        cases h2
        rw [hx] at hu_id
        exact absurd hu_id (by simp)
      | false =>
        rw [List.find?_cons] at h1 h2
        simp only [hx] at h1
        simp only [hex] at h2
        have ih := find?_email_updateFirst uid e g hg xs u h1 h2
        simp [updateFirst, hx, List.find?_cons, hex, ih]

/-! Concrete fixtures for counterexamples and witnesses. -/

/-- A stored admin user. -/
def adminFix : User :=
  { id := "u-admin", email := "admin@example.com", full_name := "Admin B"
    role := .admin, is_active := true, avatar_url := none
    oauth_providers := [], last_login := none, login_method := none
    password := none }

/-- A stored client user. -/
def clientFix : User :=
  { id := "u-client", email := "client@example.com", full_name := "Client A"
    role := .client, is_active := true, avatar_url := none
    oauth_providers := [], last_login := none, login_method := none
    password := none }

/-- A stored super admin user. -/
def superAdminFix : User :=
  { id := "u-super", email := "super@example.com", full_name := "Super S"
    role := .super_admin, is_active := true, avatar_url := none
    oauth_providers := [], last_login := none, login_method := none
    password := none }

/-- An unlocked draft project owned by the client, with no invoice. -/
def projFix : Project :=
  { id := "p1", title := "Brand Identity", description := "Logo package"
    client_id := "u-client", status := .draft, files := []
    invoice_id := none, is_locked := false }

/-- A sent invoice for project p1. -/
def invFix : Invoice :=
  { id := "i1", project_id := "p1", amount := 2500, status := .sent
    due_date := none, description := "Brand Identity Design Package" }

/-- Project p1 after it has been locked against invoice i1. -/
def projLockedFix : Project :=
  { projFix with invoice_id := some "i1", is_locked := true }

/-- Store for the invoice-creation scenario: an unlocked project, no
invoices yet. -/
def dbCreate : DB :=
  { users := [adminFix, clientFix], projects := [projFix], invoices := []
    testimonials := [], content := [] }

/-- Store for the payment scenario: the project is locked against the
pending invoice i1. -/
def dbPay : DB :=
  { users := [adminFix, clientFix], projects := [projLockedFix]
    invoices := [invFix], testimonials := [], content := [] }

/-! Claim theorems. -/

/-- C1 (code_bug evidence): an authorized invoice creation on a fresh
store inserts the invoice document but then raises AttributeError,
because the update dict mentions `ProjectStatus.LOCKED` and the
ProjectStatus enum has no LOCKED member; the endpoint therefore returns
a 500 and the project keeps `is_locked = false` and no invoice
reference, contrary to the claimed idempotent lock-set. -/
theorem create_invoice_raises_and_leaves_project_unlocked :
    ProjectStatus.fromMemberName "LOCKED" = none
    ∧ (create_invoice "i1" dbCreate
        { project_id := "p1", amount := 2500
          description := "Brand Identity Design Package", due_date := none }
        adminFix).1
      = .error (.attributeError "type object ProjectStatus has no attribute LOCKED")
    ∧ (create_invoice "i1" dbCreate
        { project_id := "p1", amount := 2500
          description := "Brand Identity Design Package", due_date := none }
        adminFix).2.projects = [projFix]
    ∧ projFix.is_locked = false
    ∧ projFix.invoice_id = none
    ∧ (create_invoice "i1" dbCreate
        { project_id := "p1", amount := 2500
          description := "Brand Identity Design Package", due_date := none }
        adminFix).2.invoices.length = 1 := by
  refine ⟨rfl, ?_, ?_, rfl, rfl, ?_⟩ <;> rfl

/-- C2 (counterexample): a CLIENT-role caller, a role outside the
{ADMIN, SUPER_ADMIN} set that gates invoice creation, pays an existing
invoice and the call succeeds and mutates both collections instead of
failing with Forbidden: pay_invoice performs no role check. -/
theorem pay_invoice_client_not_forbidden :
    clientFix.role = .client
    ∧ isForbidden (pay_invoice dbPay "i1" clientFix).1 = false
    ∧ (pay_invoice dbPay "i1" clientFix).1 = .ok "Invoice paid successfully"
    ∧ (pay_invoice dbPay "i1" clientFix).2.invoices
        = [{ invFix with status := .paid }]
    ∧ (pay_invoice dbPay "i1" clientFix).2.invoices ≠ dbPay.invoices := by
  refine ⟨rfl, rfl, rfl, rfl, ?_⟩
  decide

/-- C2 (amended): only invoice creation is role-gated. For every caller
whose role is outside {ADMIN, SUPER_ADMIN}, create_invoice returns 403
Forbidden with the store returned untouched and independent of its
contents (the role check precedes any state read or write); pay_invoice
checks no role at all, so it never returns Forbidden for any caller. -/
theorem invoice_role_gates (freshId : String) (db : DB)
    (invoice_data : InvoiceCreate) (u : User)
    (h : u.role ≠ .admin ∧ u.role ≠ .super_admin) :
    create_invoice freshId db invoice_data u
      = (.error (.http 403 "Not authorized to create invoices"), db)
    ∧ ∀ (db2 : DB) (invoice_id : String) (v : User),
        isForbidden (pay_invoice db2 invoice_id v).1 = false := by
  constructor
  · cases hr : u.role with
    | admin => exact absurd hr h.1
    | super_admin => exact absurd hr h.2
    | client => simp [create_invoice, hr]
    | client_manager => simp [create_invoice, hr]
  · intro db2 invoice_id v
    cases hfind : db2.invoices.find? (fun i => i.id == invoice_id) with
    | none => simp [pay_invoice, hfind, isForbidden]
    | some inv => simp [pay_invoice, hfind, isForbidden]

/-- C2 (witness for the amended theorem, instantiated at the CLIENT
caller of the counterexample scenario). -/
theorem invoice_role_gates_witness :
    create_invoice "i9" dbPay
        { project_id := "p1", amount := 100, description := "x", due_date := none }
        clientFix
      = (.error (.http 403 "Not authorized to create invoices"), dbPay)
    ∧ isForbidden (pay_invoice dbPay "i1" clientFix).1 = false := by
  have h := invoice_role_gates "i9" dbPay
    { project_id := "p1", amount := 100, description := "x", due_date := none }
    clientFix ⟨by decide, by decide⟩
  exact ⟨h.1, h.2 dbPay "i1" clientFix⟩

/-- C3: paying an existing invoice (first match for its id, with at
most one project referencing it, as the data model guarantees) marks
the invoice PAID and leaves every project referencing it unlocked with
status IN_PROGRESS. -/
theorem pay_invoice_unlocks_project (db : DB) (invoice_id : String)
    (inv : Invoice) (caller : User)
    (hinv : db.invoices.find? (fun i => i.id == invoice_id) = some inv)
    (huniq : (db.projects.filter (fun p => p.invoice_id == some invoice_id)).length ≤ 1) :
    (pay_invoice db invoice_id caller).1 = .ok "Invoice paid successfully"
    ∧ (pay_invoice db invoice_id caller).2.invoices.find?
        (fun i => i.id == invoice_id) = some { inv with status := .paid }
    ∧ ∀ p ∈ (pay_invoice db invoice_id caller).2.projects,
        p.invoice_id = some invoice_id →
          p.is_locked = false ∧ p.status = .in_progress := by
  refine ⟨?_, ?_, ?_⟩
  · simp [pay_invoice, hinv]
  · have h := find?_updateFirst_self (fun i => i.id == invoice_id)
      (fun i => { i with status := .paid }) (fun x hx => hx) db.invoices inv hinv
    simp [pay_invoice, hinv]
    exact h
  · intro p hp hpid
    have hq : (fun p : Project => p.invoice_id == some invoice_id) p = true := by
      simp [hpid]
    simp only [pay_invoice, hinv] at hp
    obtain ⟨y, _, _, hxy⟩ := mem_updateFirst_unique
      (fun p : Project => p.invoice_id == some invoice_id)
      (fun p => { p with is_locked := false, status := .in_progress })
      (fun x => rfl) db.projects huniq p hp hq
    subst hxy
    exact ⟨rfl, rfl⟩

/-- C3 (witness): the concrete payment scenario of the test script. -/
theorem pay_invoice_unlocks_project_witness :
    (pay_invoice dbPay "i1" adminFix).1 = .ok "Invoice paid successfully"
    ∧ (pay_invoice dbPay "i1" adminFix).2.invoices.find?
        (fun i => i.id == "i1") = some { invFix with status := .paid }
    ∧ ∀ p ∈ (pay_invoice dbPay "i1" adminFix).2.projects,
        p.invoice_id = some "i1" →
          p.is_locked = false ∧ p.status = .in_progress :=
  pay_invoice_unlocks_project dbPay "i1" invFix adminFix (by decide) (by decide)

/-- C8: the authorization policy is a per-operation allow-set.
Content-section editing forbids exactly the roles outside
{SUPER_ADMIN, ADMIN, CLIENT_MANAGER} (so CLIENT_MANAGER is allowed),
while changing a user role forbids exactly the roles other than
SUPER_ADMIN (so ADMIN and CLIENT_MANAGER are denied): the two
allow-sets differ, hence no single role threshold describes both. -/
theorem per_operation_allow_sets (db : DB) (freshId : String) (now : Nat)
    (section_name : String) (content_update : List (String × String))
    (target : String) (new_role : UserRole) :
    ∀ u : User,
      isForbidden (update_content_section freshId now db section_name content_update u).1
        = !(u.role == .super_admin || u.role == .admin || u.role == .client_manager)
      ∧ isForbidden (update_user_role db target new_role u).1
        = !(u.role == .super_admin) := by
  intro u
  constructor
  · cases hr : u.role <;>
      simp [update_content_section, hr, isForbidden]
  · cases hr : u.role <;>
      [skip; skip; skip; skip] <;>
      · by_cases hm : db.users.any (fun v => v.id == target) <;>
          simp [update_user_role, hr, isForbidden, hm]

/-- C9: a publicly submitted testimonial is stored with
`approved = false` no matter what the payload carried in its `approved`
field (pydantic drops it and the handler overwrites it), so the new
document never appears in the approved-only public listing. -/
theorem created_testimonial_not_public (freshId : String) (now : Nat)
    (db : DB) (payload : TestimonialPayload) :
    ((create_testimonial freshId now db (parseTestimonialCreate payload)).1).approved = false
    ∧ (create_testimonial freshId now db (parseTestimonialCreate payload)).1
        ∉ get_testimonials (create_testimonial freshId now db (parseTestimonialCreate payload)).2
    ∧ ∀ t ∈ get_testimonials (create_testimonial freshId now db (parseTestimonialCreate payload)).2,
        t.approved = true := by
  refine ⟨rfl, ?_, ?_⟩
  · intro hmem
    have h := (List.mem_filter.mp hmem).2
    simp [create_testimonial] at h
  · intro t ht
    exact (List.mem_filter.mp ht).2

/-- C4: for a freshly registered user, login with the registered email
and correct password succeeds and yields a token, and resolving that
token before its expiry under the same secret returns a user whose
email and role equal the registered ones. -/
theorem register_login_resolve_roundtrip (B : BcryptModel)
    (hB : ∀ p, B.checkpw p (B.hashpw p) = true)
    (freshId : String) (db : DB) (ud : UserCreate) (u : User) (db' : DB)
    (hreg : register_user B freshId db ud = (.ok u, db'))
    (now now2 : Nat) (secret : String)
    (hexp : now2 < now + ACCESS_TOKEN_EXPIRE_SECONDS) :
    ∃ tok u2,
      login B db' ud.email ud.password now secret = .ok (tok, u2)
      ∧ get_current_user db' tok secret now2 = .ok u2
      ∧ u2.email = ud.email ∧ u2.role = ud.role := by
  cases hfind : db.users.find? (fun v => v.email == ud.email) with
  | some w =>
    simp only [register_user, hfind] at hreg
    simp at hreg
  | none =>
    simp only [register_user, hfind, Prod.mk.injEq] at hreg
    obtain ⟨-, hdb⟩ := hreg
    subst hdb
    have hfa : (db.users ++ [registerStored B freshId ud]).find?
        (fun v => v.email == ud.email) = some (registerStored B freshId ud) := by
      rw [List.find?_append, hfind]
      simp [List.find?, registerStored, registerUserObj]
    refine ⟨create_access_token ud.email (some ACCESS_TOKEN_EXPIRE_SECONDS) now secret,
      registerStored B freshId ud, ?_, ?_, rfl, rfl⟩
    · simp only [login]
      rw [hfa]
      simp [registerStored, registerUserObj, hash_password, verify_password, hB]
    · simp only [get_current_user, create_access_token, jwtDecode, if_pos rfl]
      rw [if_pos hexp]
      simp [hfa]

/-- A trivially correct instantiation of the bcrypt interface, used by
witnesses: the hash is the password itself and checking is equality. -/
def bcryptId : BcryptModel :=
  { hashpw := fun p => p, checkpw := fun p h => p == h }

/-- An empty store. -/
def dbEmpty : DB :=
  { users := [], projects := [], invoices := [], testimonials := [], content := [] }

/-- Registration data for the round-trip witness. -/
def udFix : UserCreate :=
  { email := "new@example.com", password := "pw", full_name := "New User"
    role := .client, company := none }

/-- The store after the round-trip witness registration. -/
def dbReg : DB := { dbEmpty with users := [registerStored bcryptId "u-new" udFix] }

/-- C4 (witness): the round trip evaluated on a concrete registration. -/
theorem register_login_resolve_roundtrip_witness :
    ∃ tok u2,
      login bcryptId dbReg "new@example.com" "pw" 0 "topsecret" = .ok (tok, u2)
      ∧ get_current_user dbReg tok "topsecret" 60 = .ok u2
      ∧ u2.email = "new@example.com" ∧ u2.role = .client :=
  register_login_resolve_roundtrip bcryptId (fun p => by simp [bcryptId]) "u-new" dbEmpty
    udFix (registerUserObj "u-new" udFix) dbReg rfl 0 60 "topsecret" (by decide)

/-- C5: every malformed token, token signed under a different secret,
expired token, token without a subject claim, and token whose subject
email has no stored user makes resolution fail with the one shared 401
credentials exception; no distinct expired outcome exists. -/
theorem invalid_tokens_all_unauthenticated (db : DB) (secret : String) (now : Nat) :
    (∀ raw, get_current_user db (.malformed raw) secret now
        = .error credentials_exception)
    ∧ (∀ c s, s ≠ secret → get_current_user db (.signed c s) secret now
        = .error credentials_exception)
    ∧ (∀ c : JwtClaims, c.exp ≤ now → get_current_user db (.signed c secret) secret now
        = .error credentials_exception)
    ∧ (∀ e, now < e →
        get_current_user db (.signed { sub := none, exp := e } secret) secret now
          = .error credentials_exception)
    ∧ (∀ email e, now < e →
        db.users.find? (fun v => v.email == email) = none →
        get_current_user db (.signed { sub := some email, exp := e } secret) secret now
          = .error credentials_exception) := by
  refine ⟨fun raw => rfl, ?_, ?_, ?_, ?_⟩
  · intro c s hs
    simp [get_current_user, jwtDecode, hs]
  · intro c hc
    simp [get_current_user, jwtDecode, Nat.not_lt.mpr hc]
  · intro e he
    simp [get_current_user, jwtDecode, he]
  · intro email e he hf
    simp [get_current_user, jwtDecode, he, hf]

/-- C5 (witness): the five failure modes at concrete tokens over an
empty user store with secret k at time 10. -/
theorem invalid_tokens_all_unauthenticated_witness :
    get_current_user dbEmpty (.malformed "zzz") "k" 10 = .error credentials_exception
    ∧ get_current_user dbEmpty (.signed { sub := some "a@b.c", exp := 99 } "other") "k" 10
        = .error credentials_exception
    ∧ get_current_user dbEmpty (.signed { sub := some "a@b.c", exp := 5 } "k") "k" 10
        = .error credentials_exception
    ∧ get_current_user dbEmpty (.signed { sub := none, exp := 99 } "k") "k" 10
        = .error credentials_exception
    ∧ get_current_user dbEmpty (.signed { sub := some "ghost@x", exp := 99 } "k") "k" 10
        = .error credentials_exception := by
  have h := invalid_tokens_all_unauthenticated dbEmpty "k" 10
  exact ⟨h.1 "zzz", h.2.1 _ "other" (by decide), h.2.2.1 _ (by decide),
    h.2.2.2.1 99 (by decide), h.2.2.2.2 "ghost@x" 99 (by decide) (by decide)⟩

/-- C10: token resolution never consults `is_active`: a well-signed
unexpired token whose subject email is stored resolves to that user,
and after a super admin deactivates the user via the status toggle the
same token still resolves (to the now-inactive record). -/
theorem resolve_ignores_is_active (db : DB) (email : String) (u : User)
    (secret : String) (e now : Nat)
    (hfind : db.users.find? (fun v => v.email == email) = some u)
    (hexp : now < e) :
    get_current_user db (.signed { sub := some email, exp := e } secret) secret now
      = .ok u
    ∧ ∀ (uid : String) (S : User), S.role = .super_admin →
        db.users.find? (fun v => v.id == uid) = some u →
        get_current_user (toggle_user_status db uid S).2
            (.signed { sub := some email, exp := e } secret) secret now
          = .ok { u with is_active := !u.is_active } := by
  constructor
  · simp [get_current_user, jwtDecode, hexp, hfind]
  · intro uid S hS hfid
    have hg := find?_email_updateFirst uid email
      (fun v => { v with is_active := !u.is_active }) (fun v => rfl)
      db.users u hfid hfind
    have htog : (toggle_user_status db uid S).2
        = { db with users := updateFirst (fun v => v.id == uid) (fun v => { v with is_active := !u.is_active }) db.users } := by
      simp [toggle_user_status, hS, hfid]
    rw [htog]
    simp only [get_current_user, jwtDecode, if_pos rfl]
    rw [if_pos hexp]
    simp [hg]

/-- A store holding just the client and the super admin. -/
def dbUsers : DB :=
  { users := [clientFix, superAdminFix], projects := [], invoices := []
    testimonials := [], content := [] }

/-- C10 (witness): the client token still resolves after the super
admin deactivates the client. -/
theorem resolve_ignores_is_active_witness :
    get_current_user dbUsers (.signed { sub := some "client@example.com", exp := 99 } "k") "k" 0
      = .ok clientFix
    ∧ get_current_user (toggle_user_status dbUsers "u-client" superAdminFix).2
        (.signed { sub := some "client@example.com", exp := 99 } "k") "k" 0
      = .ok { clientFix with is_active := !clientFix.is_active } := by
  have h := resolve_ignores_is_active dbUsers "client@example.com" clientFix "k" 99 0
    (by decide) (by decide)
  exact ⟨h.1, h.2 "u-client" superAdminFix rfl (by decide)⟩

/-- C7: OAuth reconciliation precedence. When a stored user (first
match by id, as unique ids guarantee) already links this (provider,
external id), that user is reused with the link replaced by one
carrying the fresh timestamp and the row count unchanged. Otherwise,
when a stored user has the same email, the link is attached to that
user and no row is created. Otherwise exactly one new user is inserted,
with role CLIENT and exactly one provider link. -/
theorem oauth_reconciliation_precedence (freshId : String) (now : Nat)
    (db : DB) (d : OAuthUserData) :
    (∀ ex, db.users.find? (fun v => hasProviderLink v d.provider d.provider_id) = some ex →
      db.users.find? (fun v => v.id == ex.id) = some ex →
      (create_or_update_oauth_user freshId now db d).1 = .ok (applyOAuthSet d now ex)
      ∧ (applyOAuthSet d now ex).id = ex.id
      ∧ getLink (applyOAuthSet d now ex).oauth_providers d.provider
          = some { provider_id := d.provider_id, email := d.email, last_login := now }
      ∧ ((create_or_update_oauth_user freshId now db d).2).users.length = db.users.length)
    ∧ (db.users.find? (fun v => hasProviderLink v d.provider d.provider_id) = none →
      ∀ ex, db.users.find? (fun v => v.email == d.email) = some ex →
        db.users.find? (fun v => v.id == ex.id) = some ex →
        (create_or_update_oauth_user freshId now db d).1 = .ok (applyOAuthSet d now ex)
        ∧ (applyOAuthSet d now ex).id = ex.id
        ∧ getLink (applyOAuthSet d now ex).oauth_providers d.provider
            = some { provider_id := d.provider_id, email := d.email, last_login := now }
        ∧ ((create_or_update_oauth_user freshId now db d).2).users.length = db.users.length)
    ∧ (db.users.find? (fun v => hasProviderLink v d.provider d.provider_id) = none →
      db.users.find? (fun v => v.email == d.email) = none →
      ∀ fn, (if truthyStr d.display_name then d.display_name else d.name) = some fn →
        (create_or_update_oauth_user freshId now db d).1 = .ok (oauthNewUser freshId now d fn)
        ∧ (create_or_update_oauth_user freshId now db d).2.users
            = db.users ++ [oauthNewUser freshId now d fn]
        ∧ (oauthNewUser freshId now d fn).role = .client
        ∧ (oauthNewUser freshId now d fn).oauth_providers
            = [(d.provider, { provider_id := d.provider_id, email := d.email, last_login := now })]) := by
  refine ⟨?_, ?_, ?_⟩
  · intro ex h1 hid
    have hup := find?_updateFirst_self (fun v => v.id == ex.id)
      (applyOAuthSet d now) (fun x hx => hx) db.users ex hid
    refine ⟨?_, rfl, ?_, ?_⟩
    · simp only [create_or_update_oauth_user, h1]
      rw [hup]
    · simp [applyOAuthSet, getLink_setLink]
    · simp only [create_or_update_oauth_user, h1]
      rw [hup]
      simp [length_updateFirst]
  · intro h1 ex h2 hid
    have hup := find?_updateFirst_self (fun v => v.id == ex.id)
      (applyOAuthSet d now) (fun x hx => hx) db.users ex hid
    refine ⟨?_, rfl, ?_, ?_⟩
    · simp only [create_or_update_oauth_user, h1, h2]
      rw [hup]
    · simp [applyOAuthSet, getLink_setLink]
    · simp only [create_or_update_oauth_user, h1, h2]
      rw [hup]
      simp [length_updateFirst]
  · intro h1 h2 fn hfn
    refine ⟨?_, ?_, rfl, rfl⟩
    · simp only [create_or_update_oauth_user, h1, h2, hfn]
    · simp only [create_or_update_oauth_user, h1, h2, hfn]

/-- First OAuth login of the witness: google identity, new email. -/
def oauthD1 : OAuthUserData :=
  { provider := "google", provider_id := "g-123", email := "oauth@example.com"
    display_name := some "OAuth User", name := none, avatar := none }

/-- Second OAuth login of the witness: discord identity, same email. -/
def oauthD2 : OAuthUserData :=
  { provider := "discord", provider_id := "d-456", email := "oauth@example.com"
    display_name := some "OAuth User", name := none, avatar := none }

/-- The store after the first witness OAuth login. -/
def dbAfterFirstOAuth : DB := (create_or_update_oauth_user "u-oauth" 100 dbEmpty oauthD1).2

/-- C7 (witness): a brand-new email creates exactly one CLIENT user with
one link; a second login from a different provider with the same email
attaches to the same user without adding a row. -/
theorem oauth_reconciliation_precedence_witness :
    (create_or_update_oauth_user "u-oauth" 100 dbEmpty oauthD1).1
      = .ok (oauthNewUser "u-oauth" 100 oauthD1 "OAuth User")
    ∧ (oauthNewUser "u-oauth" 100 oauthD1 "OAuth User").role = .client
    ∧ dbAfterFirstOAuth.users = [oauthNewUser "u-oauth" 100 oauthD1 "OAuth User"]
    ∧ (create_or_update_oauth_user "u2" 200 dbAfterFirstOAuth oauthD2).1
      = .ok (applyOAuthSet oauthD2 200 (oauthNewUser "u-oauth" 100 oauthD1 "OAuth User"))
    ∧ (create_or_update_oauth_user "u2" 200 dbAfterFirstOAuth oauthD2).2.users.length
      = dbAfterFirstOAuth.users.length := by
  have h1 := (oauth_reconciliation_precedence "u-oauth" 100 dbEmpty oauthD1).2.2
    (by decide) (by decide) "OAuth User" (by decide)
  have h2 := (oauth_reconciliation_precedence "u2" 200 dbAfterFirstOAuth oauthD2).2.1
    (by decide) (oauthNewUser "u-oauth" 100 oauthD1 "OAuth User") (by decide) (by decide)
  exact ⟨h1.1, h1.2.2.1, by decide, h2.1, h2.2.2.2⟩

/-- Helper for C6: every normal (non-raising) outcome of the callback
body is a redirect. -/
theorem oauth_callback_body_ok_redirect (provider : String)
    (code state error error_description : Option String)
    (gp : Option ProviderBehavior) (freshId : String) (now : Nat)
    (secret : String) (db : DB) (r : Response) (db2 : DB)
    (h : oauth_callback_body provider code state error error_description
        gp freshId now secret db = (.ok r, db2)) :
    ∃ url, r = .redirect url := by
  unfold oauth_callback_body at h
  repeat' split at h
  all_goals first
    | (simp only [Prod.mk.injEq, Except.ok.injEq] at h; exact ⟨_, h.1.symm⟩)
    | simp_all

/-- C6: the OAuth callback always answers with a redirect, never a raw
4xx or 5xx response: a provider error is handled before code and state
are required and its value is carried in the redirect; missing code or
state yields the missing_parameters redirect; and every exception the
body raises (unknown provider, failed token exchange, missing access
token, failed user-info fetch) is converted into a redirect carrying
the non-empty error value oauth_failed. -/
theorem oauth_callback_always_redirects (provider : String)
    (code state error error_description : Option String)
    (gp : Option ProviderBehavior) (freshId : String) (now : Nat)
    (secret : String) (db : DB) :
    (∃ url db2, oauth_callback provider code state error error_description
        gp freshId now secret db = (.redirect url, db2))
    ∧ (truthyStr error = true →
        error.getD "" ≠ ""
        ∧ (oauth_callback provider code state error error_description gp freshId now secret db).1
          = .redirect (FRONTEND_AUTH ++ "?error=" ++ error.getD "" ++ "&provider="
              ++ provider ++ "&message="
              ++ (if truthyStr error_description then error_description.getD "" else error.getD "")))
    ∧ (truthyStr error = false → (truthyStr code && truthyStr state) = false →
        (oauth_callback provider code state error error_description gp freshId now secret db).1
          = .redirect (FRONTEND_AUTH ++ "?error=missing_parameters&provider="
              ++ provider ++ "&message=Missing required OAuth parameters"))
    ∧ (∀ e db2, oauth_callback_body provider code state error error_description
          gp freshId now secret db = (.error e, db2) →
        oauth_callback provider code state error error_description gp freshId now secret db
          = (.redirect (FRONTEND_AUTH ++ "?error=oauth_failed&provider=" ++ provider
              ++ "&message=" ++ e.msg), db2))
    ∧ (truthyStr error = false → (truthyStr code && truthyStr state) = true →
        (gp = none →
          oauth_callback_body provider code state error error_description gp freshId now secret db
            = (.error (.httpException 400 ("OAuth provider " ++ provider ++ " not available")), db))
        ∧ (∀ pb m, gp = some pb → pb.token_exchange = .error m →
            oauth_callback_body provider code state error error_description gp freshId now secret db
              = (.error (.generic m), db))
        ∧ (∀ pb t, gp = some pb → pb.token_exchange = .ok t → truthyStr t = false →
            oauth_callback_body provider code state error error_description gp freshId now secret db
              = (.error (.httpException 400 "Failed to get access token"), db))
        ∧ (∀ pb t m, gp = some pb → pb.token_exchange = .ok t → truthyStr t = true →
            pb.user_info = .error m →
            oauth_callback_body provider code state error error_description gp freshId now secret db
              = (.error (.generic m), db))) := by
  refine ⟨?_, ?_, ?_, ?_, ?_⟩
  · rcases hb : oauth_callback_body provider code state error error_description
        gp freshId now secret db with ⟨r, db2⟩
    cases r with
    | error e =>
      refine ⟨FRONTEND_AUTH ++ "?error=oauth_failed&provider=" ++ provider
        ++ "&message=" ++ e.msg, db2, ?_⟩
      simp [oauth_callback, hb]
    | ok resp =>
      obtain ⟨url, hurl⟩ := oauth_callback_body_ok_redirect provider code state
        error error_description gp freshId now secret db resp db2 hb
      subst hurl
      exact ⟨url, db2, by simp [oauth_callback, hb]⟩
  · intro he
    constructor
    · cases error with
      | none => simp [truthyStr] at he
      | some s =>
        simp only [truthyStr, Bool.not_eq_true', beq_iff_eq] at he
        simpa using he
    · simp [oauth_callback, oauth_callback_body, he]
  · intro he hcs
    simp [oauth_callback, oauth_callback_body, he, hcs]
  · intro e db2 hb
    simp [oauth_callback, hb]
  · intro he hcs
    refine ⟨?_, ?_, ?_, ?_⟩
    · intro hgp
      simp [oauth_callback_body, he, hcs, hgp]
    · intro pb m hgp hex
      simp [oauth_callback_body, he, hcs, hgp, hex]
    · intro pb t hgp hex ht
      simp [oauth_callback_body, he, hcs, hgp, hex, ht]
    · intro pb t m hgp hex ht hui
      simp [oauth_callback_body, he, hcs, hgp, hex, ht, hui]

/-- A provider behavior whose token exchange raises. -/
def pbFailFix : ProviderBehavior :=
  { token_exchange := .error "token exchange failed", user_info := .error "unused" }

/-- C6 (witness): the access_denied branch without code or state, the
missing-parameters branch, and a failing token exchange, all ending in
redirects. -/
theorem oauth_callback_always_redirects_witness :
    (oauth_callback "google" none none (some "access_denied") none none "f" 0 "k" dbEmpty).1
      = .redirect "https://graphix-hub-4.preview.emergentagent.com/auth?error=access_denied&provider=google&message=access_denied"
    ∧ (oauth_callback "google" none none none none none "f" 0 "k" dbEmpty).1
      = .redirect "https://graphix-hub-4.preview.emergentagent.com/auth?error=missing_parameters&provider=google&message=Missing required OAuth parameters"
    ∧ oauth_callback "google" (some "badcode") (some "st") none none (some pbFailFix) "f" 0 "k" dbEmpty
      = (.redirect "https://graphix-hub-4.preview.emergentagent.com/auth?error=oauth_failed&provider=google&message=token exchange failed", dbEmpty) := by
  have h1 := (oauth_callback_always_redirects "google" none none (some "access_denied")
    none none "f" 0 "k" dbEmpty).2.1 (by decide)
  have h2 := (oauth_callback_always_redirects "google" none none none none none
    "f" 0 "k" dbEmpty).2.2.1 (by decide) (by decide)
  have h5 := ((oauth_callback_always_redirects "google" (some "badcode") (some "st")
    none none (some pbFailFix) "f" 0 "k" dbEmpty).2.2.2.2 (by decide) (by decide)).2.1
    pbFailFix "token exchange failed" rfl rfl
  have h4 := (oauth_callback_always_redirects "google" (some "badcode") (some "st")
    none none (some pbFailFix) "f" 0 "k" dbEmpty).2.2.2.1
    (.generic "token exchange failed") dbEmpty h5
  refine ⟨?_, ?_, ?_⟩
  · rw [h1.2]; decide
  · rw [h2]; decide
  · rw [h4]; decide

end EternalsStudio
